import Mathlib

/-!
Verification development for the ctf-gameserver VPN provisioning scripts.

The repository contains two provisioning scripts sharing one design:
`vpnconfig.py` (WireGuard variant) and `gamectrl/openvpn.py` (OpenVPN
variant).  Both are sequential orchestration scripts whose observable
behaviour is a sequence of external-command invocations and file writes,
all determined by the team number, the CLI configuration, and the state
of the filesystem and of the tunnel runtime at the time of the call.

The embedding models each script function as a pure Lean function from
those inputs to either an event trace (the ordered list of side effects
the Python function performs) or a new filesystem state.  External
inputs that the scripts consult (existence of key files, contents of key
files, the token list printed by the runtime query, the outcome of key
generation) are fields of explicit state records, so every definition is
executable and every concrete scenario can be evaluated.
-/

namespace Py

/-- Models Python's `str.isdigit` on a single character.  Python's
`isdigit` is Unicode-aware: it accepts the ASCII decimal digits and in
addition every character whose Unicode `Numeric_Type` is `Digit`, for
example the Latin-1 superscript digits `¹`, `²`, `³` (which are *not*
decimal digits).  This definition covers the ASCII digits plus those
three superscripts; every character it accepts is accepted by Python's
`str.isdigit`, so it is a faithful restriction of Python's table to the
characters that occur in this development. -/
def pyCharIsDigit (c : Char) : Bool :=
  c.isDigit || c == '¹' || c == '²' || c == '³'

/-- Models Python's `str.isdigit` on a whole string (viewed as its list
of code points, which is how Python indexes strings): true iff the
string is non-empty and every character is a digit character. -/
def pyStrIsDigit (cs : List Char) : Bool :=
  !cs.isEmpty && cs.all pyCharIsDigit

end Py

/-- Decimal parse-back helper used to prove that decimal rendering of
numbers is injective on the range of valid subnet octets. -/
def parseDec (cs : List Char) : Nat :=
  cs.foldl (fun acc c => 10 * acc + (c.toNat - 48)) 0

namespace VpnConfig

/-- CLI configuration of `vpnconfig.py` (the argparse options threaded
through every function via `args`). -/
structure Args where
  wg_dir : String
  downloads_root : String
  endpoint : String
  base_port : Int
  dns : String

/-- Argparse defaults of `vpnconfig.py` (lines 427-444). -/
def defaultArgs : Args :=
  { wg_dir := "/etc/wireguard"
  , downloads_root := "/var/www/team-downloads"
  , endpoint := "x3ero0.dev"
  , base_port := 51820
  , dns := "10.32.0.1" }

/-- The fixed IP prefix constant `PREFIX = "10.32"` of `vpnconfig.py`
(line 50). -/
def PREFIX_VAL : String := "10.32"

/-- Symbolic identity of the files `generate_team_config` writes.  The
concrete path of each target is given by `FileTarget.path`, translated
from the `Path` arithmetic of the source. -/
inductive FileTarget where
  | serverPriv
  | serverPub
  | clientPriv (net : Int)
  | clientPub (net : Int)
  | wgConf (net : Int)
  | vpnConf (net : Int)
  deriving DecidableEq

/-- Path of each file target, from the source: `wg_dir / "server.priv"`,
`wg_dir / "server.pub"` (lines 144-145), `downloads / str(net) /
"private.key"` and `"public.key"` (lines 170-177), `wg_dir /
f"wg{net}.conf"` (line 180), `team_dir / "vpn.conf"` (line 206). -/
def FileTarget.path (t : FileTarget) (args : Args) : String :=
  match t with
  | .serverPriv => args.wg_dir ++ "/server.priv"
  | .serverPub => args.wg_dir ++ "/server.pub"
  | .clientPriv net => args.downloads_root ++ "/" ++ toString net ++ "/private.key"
  | .clientPub net => args.downloads_root ++ "/" ++ toString net ++ "/public.key"
  | .wgConf net => args.wg_dir ++ "/wg" ++ toString net ++ ".conf"
  | .vpnConf net => args.downloads_root ++ "/" ++ toString net ++ "/vpn.conf"

/-- One observable side effect of `vpnconfig.py`:
`stop i` is `systemctl stop/disable wg-quick@i` (`stop_interface`),
`start i` is `systemctl enable --now wg-quick@i` (`start_interface`),
`genServerKeypair` / `genClientKeypair` are invocations of
`wg genkey` + `wg pubkey`, and `write t c` writes content `c` to file
target `t` (`write_text`). -/
inductive Event where
  | stop (iface : String)
  | start (iface : String)
  | genServerKeypair
  | genClientKeypair
  | write (target : FileTarget) (content : String)
  deriving DecidableEq

/-- External state consulted by `generate_team_config`: existence and
contents of the server key files, the whitespace-split output of
`wg show interfaces`, and the key material that `wg genkey`/`wg pubkey`
would produce if invoked on this call.  Key strings are modelled
post-`strip()` because `run(capture=True)` strips its output before any
caller sees it.  The field `clientKeyFilesExist` records whether the
team's `private.key`/`public.key` already exist on disk; the source
never consults these files before regenerating them, which is exactly
what the idempotence claims are about. -/
structure World where
  serverPrivExists : Bool
  serverPubExists : Bool
  clientKeyFilesExist : Bool
  serverKeyFiles : String × String
  freshServerKeys : String × String
  freshClientKeys : String × String
  runtimeTokens : List String
  deriving DecidableEq

/-- Filter of `get_existing_wg_interfaces` (line 107):
`iface.startswith("wg") and iface[2:].isdigit()`, stated on the list of
code points of the name. -/
def wgIfacePattern (iface : String) : Bool :=
  match iface.toList with
  | 'w' :: 'g' :: rest => Py.pyStrIsDigit rest
  | _ => false

/-- Models `get_existing_wg_interfaces` (lines 98-111): the runtime
query output is split into tokens and filtered by `wgIfacePattern`. -/
def get_existing_wg_interfaces (tokens : List String) : List String :=
  tokens.filter wgIfacePattern

/-- Server keypair selection of `generate_team_config` (lines 143-156):
when `server_keys` is passed in, use it; otherwise read the key files if
both exist, else use the freshly generated pair (which is also what the
files contain after the generate-and-write step). -/
def serverKeysUsed (server_keys : Option (String × String)) (w : World) :
    String × String :=
  match server_keys with
  | some ks => ks
  | none =>
      if w.serverPrivExists && w.serverPubExists then w.serverKeyFiles
      else w.freshServerKeys

/-- Events of the server keypair step of `generate_team_config` (lines
143-156): nothing when `server_keys` was passed in or both key files
exist; otherwise generate the pair and write both files. -/
def serverKeyEvents (server_keys : Option (String × String)) (w : World) :
    List Event :=
  match server_keys with
  | some _ => []
  | none =>
      if w.serverPrivExists && w.serverPubExists then []
      else
        [Event.genServerKeypair,
         Event.write .serverPriv w.freshServerKeys.1,
         Event.write .serverPub w.freshServerKeys.2]

/-- The per-team resource allocation of `generate_team_config` (lines
158-161): `iface = f"wg{net}"`, `port = base_port + net`,
`subnet_gw = f"{PREFIX}.{net}.1/24"`, `peer_ip32 = f"{PREFIX}.{net}.2/32"`. -/
structure Allocation where
  iface : String
  port : Int
  subnet_gw : String
  peer_ip32 : String
  deriving DecidableEq

/-- Allocation function, translated from lines 158-161 of
`vpnconfig.py`.  There is no validation of `net` anywhere on this path:
the function is total. -/
def allocate (net : Int) (args : Args) : Allocation :=
  { iface := "wg" ++ toString net
  , port := args.base_port + net
  , subnet_gw := PREFIX_VAL ++ "." ++ toString net ++ ".1/24"
  , peer_ip32 := PREFIX_VAL ++ "." ++ toString net ++ ".2/32" }

/-- Content of the server interface file `wg{net}.conf`, transcribed
from the f-string of lines 182-203. -/
def wgConfContent (a : Allocation) (server_priv c_pub : String) : String :=
  "[Interface]\nAddress        = " ++ a.subnet_gw
  ++ "\nListenPort     = " ++ toString a.port
  ++ "\nPrivateKey     = " ++ server_priv
  ++ "\nSaveConfig     = false\n\n# NAT outgoing\nPostUp         = iptables -t nat -A POSTROUTING -o "
  ++ a.iface ++ " -j MASQUERADE\nPostDown       = iptables -t nat -D POSTROUTING -o "
  ++ a.iface ++ " -j MASQUERADE\n\n# Forward between interfaces\nPostUp         = iptables -A FORWARD -i "
  ++ a.iface ++ " -o wg+ -j ACCEPT\nPostUp         = iptables -A FORWARD -i wg+ -o "
  ++ a.iface ++ " -j ACCEPT\nPostDown       = iptables -D FORWARD -i "
  ++ a.iface ++ " -o wg+ -j ACCEPT\nPostDown       = iptables -D FORWARD -i wg+ -o "
  ++ a.iface ++ " -j ACCEPT\n\n[Peer]\nPublicKey      = "
  ++ c_pub ++ "\nAllowedIPs     = " ++ a.peer_ip32 ++ "\n"

/-- Content of the client profile `vpn.conf`, transcribed from the
f-string of lines 208-220. -/
def vpnConfContent (net : Int) (args : Args) (c_priv server_pub : String)
    (port : Int) : String :=
  "[Interface]\nPrivateKey       = " ++ c_priv
  ++ "\nAddress          = " ++ PREFIX_VAL ++ "." ++ toString net
  ++ ".2/24\nDNS              = " ++ args.dns
  ++ "\n\n[Peer]\nPublicKey        = " ++ server_pub
  ++ "\nEndpoint         = " ++ args.endpoint ++ ":" ++ toString port
  ++ "\nAllowedIPs       = " ++ PREFIX_VAL
  ++ ".0.0/16\nPersistentKeepalive = 25\n"

/-- Event trace of `generate_team_config` (lines 134-224), in source
order: server keypair step (lines 143-156), stop of the interface if the
runtime discovery reports it (lines 163-167), unconditional client
keypair generation and write (lines 169-177), write of the server
interface file (lines 179-203), write of the client profile (lines
205-220), start of the interface (line 223). -/
def generate_team_config (net : Int) (args : Args)
    (server_keys : Option (String × String)) (w : World) : List Event :=
  let sk := serverKeysUsed server_keys w
  let a := allocate net args
  let stopEvents :=
    if a.iface ∈ get_existing_wg_interfaces w.runtimeTokens
    then [Event.stop a.iface] else []
  let c := w.freshClientKeys
  serverKeyEvents server_keys w ++ stopEvents ++
    [Event.genClientKeypair,
     Event.write (.clientPriv net) c.1,
     Event.write (.clientPub net) c.2,
     Event.write (.wgConf net) (wgConfContent a sk.1 c.2),
     Event.write (.vpnConf net) (vpnConfContent net args c.1 sk.2 a.port),
     Event.start a.iface]

/-- Boolean test singling out the events of `generate_team_config` that
the reconfigure-ordering claim speaks about: runtime-controller calls
(stop/start) on the given interface, and writes of the team's
InterfaceDefinition file. -/
def runtimeAndIfaceDefEvents (net : Int) (iface : String) : Event → Bool
  | .stop i => decide (i = iface)
  | .start i => decide (i = iface)
  | .write t _ => decide (t = FileTarget.wgConf net)
  | .genServerKeypair => false
  | .genClientKeypair => false

/-- Contents written to a given file target, in trace order. -/
def writesTo (t : FileTarget) (trace : List Event) : List String :=
  trace.filterMap (fun e =>
    match e with
    | .write u c => if u = t then some c else none
    | _ => none)

/-- Definition following the words of claim C9 ("interface names
consisting of the literal prefix 'wg' followed by one or more decimal
digits"), for comparison with the source-derived filter
`wgIfacePattern`.  `Char.isDigit` is exactly the ASCII decimal digits. -/
def isWgDecimalName (s : String) : Bool :=
  match s.toList with
  | 'w' :: 'g' :: rest => !rest.isEmpty && rest.all Char.isDigit
  | _ => false

/-- Concrete state for the repeat-provisioning scenario of team 5: both
server key files exist, the team's client key files exist, and the
interface `wg5` is reported up by the runtime. -/
def existingKeysWorld : World :=
  { serverPrivExists := true
  , serverPubExists := true
  , clientKeyFilesExist := true
  , serverKeyFiles := ("server-priv", "server-pub")
  , freshServerKeys := ("fresh-server-priv", "fresh-server-pub")
  , freshClientKeys := ("fresh-client-priv", "fresh-client-pub")
  , runtimeTokens := ["wg5"] }

/-- The same on-disk state as `existingKeysWorld` observed at a moment
when the runtime reports no interfaces. -/
def existingKeysWorldAlt : World :=
  { existingKeysWorld with runtimeTokens := [] }

/-- Models `bring_all_down` (lines 227-241): stop every interface the
runtime discovery reports. -/
def bring_all_down (tokens : List String) : List Event :=
  (get_existing_wg_interfaces tokens).map Event.stop

/-- Models `bring_all_up` (lines 244-258): start every interface the
runtime discovery reports. -/
def bring_all_up (tokens : List String) : List Event :=
  (get_existing_wg_interfaces tokens).map Event.start

/-- The operation functions `main` can dispatch to (lines 461-470). -/
inductive MainAction where
  | modeAll
  | modeSingle
  | resetAll
  | bringAllDown
  | noAction
  deriving DecidableEq

/-- The boolean mode flags of the argparse surface of `vpnconfig.py`. -/
structure Flags where
  all : Bool
  single : Bool
  reset : Bool
  down : Bool
  up : Bool
  deriving DecidableEq

/-- Dispatch of `main` (lines 461-470), translated branch by branch.
Note line 470 of the source: the `--up` branch calls `bring_all_down`,
not `bring_all_up`. -/
def mainRoute (f : Flags) : MainAction :=
  if f.all then .modeAll
  else if f.single then .modeSingle
  else if f.reset then .resetAll
  else if f.down then .bringAllDown
  else if f.up then .bringAllDown
  else .noAction

/-- Outcome of the fleet loop of `mode_all`: which teams were attempted,
which of them failed (line 356 logs the failure and the loop continues),
and the process exit code. -/
structure FleetOutcome where
  attempted : List Int
  failedTeams : List Int
  exitCode : Nat
  deriving DecidableEq

/-- The per-team loop of `mode_all` (lines 352-356): every team in the
list is attempted in order; a team whose `generate_team_config` raises
is recorded by the `except` branch and the loop continues with the
remaining teams.  The parameter `genFails` tells which teams' generation
raises on this run. -/
def fleetAttempt (genFails : Int → Bool) : List Int → List Int × List Int
  | [] => ([], [])
  | net :: rest =>
      let r := fleetAttempt genFails rest
      (net :: r.1, if genFails net then net :: r.2 else r.2)

/-- Models `mode_all` (lines 300-361).  The whole-fleet preconditions
each call `sys.exit(1)`: missing DB settings (line 314), failed DB
connection (line 323), empty team list (line 333).  After the per-team
loop the function returns normally, so the process terminates with exit
code 0 regardless of how many teams failed. -/
def mode_all (envOk dbOk : Bool) (nets : List Int) (genFails : Int → Bool) :
    FleetOutcome :=
  if !envOk then { attempted := [], failedTeams := [], exitCode := 1 }
  else if !dbOk then { attempted := [], failedTeams := [], exitCode := 1 }
  else if nets.isEmpty then { attempted := [], failedTeams := [], exitCode := 1 }
  else
    let r := fleetAttempt genFails nets
    { attempted := r.1, failedTeams := r.2, exitCode := 0 }

end VpnConfig

/-- Outcome of a single-team mode invocation: either the guard rejects
the request with `sys.exit(1)`, or the team config is generated. -/
inductive SingleOutcome where
  | rejected
  | provisioned (net : Int)
  deriving DecidableEq

namespace VpnConfig

/-- Guard of `mode_single` in `vpnconfig.py` (lines 364-374): the check
is `if args.net_number is None`, so only a missing `--net-number` is
rejected; the integer 0 passes the guard. -/
def mode_single (netNumber : Option Int) : SingleOutcome :=
  match netNumber with
  | none => .rejected
  | some n => .provisioned n

end VpnConfig

namespace OpenVpn

/-- Constants of `gamectrl/openvpn.py` (lines 38-45). -/
def SERVER_DIR : String := "/etc/openvpn/server"

/-- Downloads directory constant of `gamectrl/openvpn.py` (line 40). -/
def DOWNLOADS_DIR : String := "/var/www/team-downloads"

/-- Base port constant of `gamectrl/openvpn.py` (line 43). -/
def BASE_PORT : Int := 1194

/-- Player subnet prefix of `gamectrl/openvpn.py` (line 44). -/
def PLAYER_SUBNET : String := "10.33"

/-- Listen port allocation of `create_team_config` (line 156):
`port = BASE_PORT + net`. -/
def teamPort (net : Int) : Int := BASE_PORT + net

/-- Player subnet allocation of `create_team_config` (line 195): the
`server {PLAYER_SUBNET}.{net}.0 255.255.255.0` directive. -/
def playerSubnet (net : Int) : String :=
  PLAYER_SUBNET ++ "." ++ toString net ++ ".0"

/-- One per-team directory under `DOWNLOADS_DIR`, with the names of the
files it holds. -/
structure TeamDir where
  name : String
  files : List String
  deriving DecidableEq

/-- The slice of the filesystem that `create_team_config` and
`mode_reset` touch: file names in `SERVER_DIR`, existence of the PKI
tree, and the per-team download directories. -/
structure Fs where
  serverConfs : List String
  pkiExists : Bool
  teamDirs : List TeamDir
  deriving DecidableEq

/-- Idempotent file creation: `write_text` overwrites, so a name is
recorded at most once. -/
def addFile (files : List String) (f : String) : List String :=
  if f ∈ files then files else files ++ [f]

/-- Write a file into a named team directory, creating the directory if
needed (`team_dir.mkdir(exist_ok=True)` followed by `write_text`). -/
def writeInDir (dirs : List TeamDir) (dname fname : String) : List TeamDir :=
  if dirs.any (fun d => d.name = dname) then
    dirs.map (fun d =>
      if d.name = dname then { d with files := addFile d.files fname } else d)
  else dirs ++ [{ name := dname, files := [fname] }]

/-- Filesystem effect of `create_team_config` (lines 144-314): ensure
the PKI exists (line 154), write the server config `team{net}.conf`
(lines 181-240), and write `player.ovpn` (line 246: the file name is the
literal `"player.ovpn"`) and `README.txt` (line 291) into the team's
download directory `str(net)`. -/
def create_team_config (net : Int) (fs : Fs) : Fs :=
  let fs1 : Fs :=
    { serverConfs := addFile fs.serverConfs ("team" ++ toString net ++ ".conf")
    , pkiExists := true
    , teamDirs := fs.teamDirs }
  let dirs := writeInDir fs1.teamDirs (toString net) "player.ovpn"
  let dirs := writeInDir dirs (toString net) "README.txt"
  { fs1 with teamDirs := dirs }

/-- Name match of the glob `team*.conf` used by `mode_reset` (line 555):
the name starts with `team`, ends with `.conf`, and is long enough that
the two literal parts do not overlap. -/
def matchesTeamConfGlob (name : String) : Bool :=
  ['t', 'e', 'a', 'm'].isPrefixOf name.toList
    && ['.', 'c', 'o', 'n', 'f'].isSuffixOf name.toList
    && decide (9 ≤ name.toList.length)

/-- Name match of the glob `*-player.ovpn` used by `mode_reset` (line
567): the name ends with the literal `-player.ovpn` (the `*` may match
the empty string).  In particular the name `player.ovpn` that
`create_team_config` actually writes does not match. -/
def matchesPlayerOvpnGlob (name : String) : Bool :=
  ['-', 'p', 'l', 'a', 'y', 'e', 'r', '.', 'o', 'v', 'p', 'n'].isSuffixOf name.toList

/-- Filesystem effect of `mode_reset` (lines 547-573): delete the server
configs matching `team*.conf`, remove the PKI tree, and inside every
digit-named team download directory delete the files matching
`*-player.ovpn` and the `README.txt`.  (The services are stopped first
via `mode_down`; that step touches no files.) -/
def mode_reset (fs : Fs) : Fs :=
  { serverConfs := fs.serverConfs.filter (fun n => !matchesTeamConfGlob n)
  , pkiExists := false
  , teamDirs := fs.teamDirs.map (fun d =>
      if Py.pyStrIsDigit d.name.toList then
        { d with files :=
            d.files.filter (fun f => !matchesPlayerOvpnGlob f && f ≠ "README.txt") }
      else d) }

/-- The empty slice of the filesystem, before any provisioning. -/
def emptyFs : Fs :=
  { serverConfs := [], pkiExists := false, teamDirs := [] }

/-- Guard of `mode_single` in `gamectrl/openvpn.py` (lines 425-434): the
check is `if not args.net_number`, Python truthiness, which is satisfied
both by `None` (flag missing) and by the integer 0. -/
def mode_single (netNumber : Option Int) : SingleOutcome :=
  match netNumber with
  | none => .rejected
  | some n => if n = 0 then .rejected else .provisioned n

/-- The per-team loop of `mode_all` in `gamectrl/openvpn.py` (lines
377-383): same structure as the WireGuard variant, every team attempted,
failures logged by the `except` branch, loop continues. -/
def fleetAttempt (createFails : Int → Bool) : List Int → List Int × List Int
  | [] => ([], [])
  | team :: rest =>
      let r := fleetAttempt createFails rest
      (team :: r.1, if createFails team then team :: r.2 else r.2)

/-- Models `mode_all` of `gamectrl/openvpn.py` (lines 366-422) together
with `get_teams_from_db` (lines 317-343): missing DB settings or a
database error exit with code 1, an empty team list exits with code 1,
and after the per-team loop the function returns normally, so the
process exits 0 regardless of per-team failures. -/
def mode_all (envOk dbOk : Bool) (teams : List Int) (createFails : Int → Bool) :
    VpnConfig.FleetOutcome :=
  if !envOk then { attempted := [], failedTeams := [], exitCode := 1 }
  else if !dbOk then { attempted := [], failedTeams := [], exitCode := 1 }
  else if teams.isEmpty then { attempted := [], failedTeams := [], exitCode := 1 }
  else
    let r := fleetAttempt createFails teams
    { attempted := r.1, failedTeams := r.2, exitCode := 0 }

end OpenVpn

/-! ## Helper lemmas -/

set_option maxRecDepth 10000 in
/-- Decimal rendering round-trips through `parseDec` on the range of
valid subnet octets. -/
theorem parseDec_repr : ∀ n < 256, parseDec (Nat.repr n).toList = n := by decide

/-- Decimal rendering of naturals is injective on the octet range. -/
theorem natRepr_injOn256 {m₁ m₂ : Nat} (h₁ : m₁ < 256) (h₂ : m₂ < 256)
    (h : (Nat.repr m₁).data = (Nat.repr m₂).data) : m₁ = m₂ := by
  have t₁ := parseDec_repr m₁ h₁
  have t₂ := parseDec_repr m₂ h₂
  have : parseDec (Nat.repr m₁).data = parseDec (Nat.repr m₂).data := by rw [h]
  rw [show (Nat.repr m₁).toList = (Nat.repr m₁).data from rfl] at t₁
  rw [show (Nat.repr m₂).toList = (Nat.repr m₂).data from rfl] at t₂
  omega

/-- Rendering a nonnegative integer is rendering its absolute value. -/
theorem intToString_ofNat (m : Nat) : toString (Int.ofNat m) = Nat.repr m := rfl

/-- Every team in the list is attempted by the WireGuard fleet loop. -/
theorem vpnFleetAttempt_fst (g : Int → Bool) (l : List Int) :
    (VpnConfig.fleetAttempt g l).1 = l := by
  induction l with
  | nil => rfl
  | cons a t ih => simp [VpnConfig.fleetAttempt, ih]

/-- Every team in the list is attempted by the OpenVPN fleet loop. -/
theorem openVpnFleetAttempt_fst (g : Int → Bool) (l : List Int) :
    (OpenVpn.fleetAttempt g l).1 = l := by
  induction l with
  | nil => rfl
  | cons a t ih => simp [OpenVpn.fleetAttempt, ih]

/-! ## Claim theorems -/

/-- Claim C10: in the OpenVPN variant, single-team mode invoked with
`net_number = 0` is rejected exactly as if the team identifier were
missing, so team 0 can never be provisioned through single mode — even
though 0 is a representable integer identifier (the WireGuard variant's
`is None` check accepts it). -/
theorem claim_C10_openvpn_zero_conflated :
    OpenVpn.mode_single (some 0) = SingleOutcome.rejected
    ∧ OpenVpn.mode_single none = SingleOutcome.rejected
    ∧ OpenVpn.mode_single (some 0) = OpenVpn.mode_single none
    ∧ (∀ o : Option Int, OpenVpn.mode_single o ≠ SingleOutcome.provisioned 0)
    ∧ OpenVpn.mode_single (some 42) = SingleOutcome.provisioned 42
    ∧ VpnConfig.mode_single (some 0) = SingleOutcome.provisioned 0 := by
  refine ⟨rfl, rfl, rfl, ?_, rfl, rfl⟩
  intro o
  match o with
  | none => simp [OpenVpn.mode_single]
  | some n =>
      by_cases hn : n = 0
      · subst hn; simp [OpenVpn.mode_single]
      · simp [OpenVpn.mode_single, hn]

/-- Claim C3 (code bug): `main` of `vpnconfig.py` dispatches the `--up`
flag to `bring_all_down` (line 470), so the start-all operation as
reachable from the CLI stops every discovered interface instead of
starting it; the unused `bring_all_up` is the function that would start
each discovered interface. -/
theorem claim_C3_up_flag_dispatches_to_down :
    VpnConfig.mainRoute
        { all := false, single := false, reset := false, down := false, up := true }
      = VpnConfig.MainAction.bringAllDown
    ∧ VpnConfig.bring_all_down ["wg1"] = [VpnConfig.Event.stop "wg1"]
    ∧ VpnConfig.bring_all_up ["wg1"] = [VpnConfig.Event.start "wg1"]
    ∧ VpnConfig.mainRoute
        { all := false, single := false, reset := false, down := true, up := false }
      = VpnConfig.MainAction.bringAllDown := by
  refine ⟨rfl, by decide, by decide, rfl⟩

/-- Claim C5 (code bug): after `mode_reset` of the OpenVPN variant, the
client profile survives.  `create_team_config` writes the client profile
under the name `player.ovpn` (line 246), but `mode_reset` deletes only
files matching the glob `*-player.ovpn` (line 567) — the name the
`README.txt` documents — which does not match `player.ovpn`.  Server
configs and the PKI are removed, yet the ClientProfile of team 5 remains
on disk. -/
theorem claim_C5_reset_leaves_client_profile :
    (OpenVpn.mode_reset (OpenVpn.create_team_config 5 OpenVpn.emptyFs)).teamDirs
      = [{ name := "5", files := ["player.ovpn"] }]
    ∧ (OpenVpn.mode_reset (OpenVpn.create_team_config 5 OpenVpn.emptyFs)).serverConfs = []
    ∧ (OpenVpn.mode_reset (OpenVpn.create_team_config 5 OpenVpn.emptyFs)).pkiExists = false
    ∧ OpenVpn.matchesPlayerOvpnGlob "player.ovpn" = false
    ∧ OpenVpn.matchesPlayerOvpnGlob "team5-player.ovpn" = true := by
  refine ⟨by decide, by decide, by decide, by decide, by decide⟩

/-- Claim C8, counterexample: with both whole-fleet preconditions
satisfied and team 1 of `[1, 2]` failing, both variants attempt every
team and record the failure, yet the process exit code is 0 — refuting
"non-zero if any team failed". -/
theorem claim_C8_counterexample :
    VpnConfig.mode_all true true [1, 2] (fun n => n == 1)
      = { attempted := [1, 2], failedTeams := [1], exitCode := 0 }
    ∧ OpenVpn.mode_all true true [1, 2] (fun n => n == 1)
      = { attempted := [1, 2], failedTeams := [1], exitCode := 0 } := by
  refine ⟨by decide, by decide⟩

/-- Claim C8, amended: per-team failures are caught at the fleet loop
and every team is attempted, but when the whole-fleet preconditions hold
the exit code is 0 regardless of per-team failures (non-zero exit arises
only from preconditions). -/
theorem claim_C8_failures_continue_exit_zero (envOk dbOk : Bool)
    (nets : List Int) (f : Int → Bool)
    (he : envOk = true) (hd : dbOk = true) (hn : nets ≠ []) :
    (VpnConfig.mode_all envOk dbOk nets f).attempted = nets
    ∧ (VpnConfig.mode_all envOk dbOk nets f).exitCode = 0
    ∧ (OpenVpn.mode_all envOk dbOk nets f).attempted = nets
    ∧ (OpenVpn.mode_all envOk dbOk nets f).exitCode = 0 := by
  subst he; subst hd
  have hne : nets.isEmpty = false := by
    cases nets with
    | nil => exact absurd rfl hn
    | cons a t => rfl
  refine ⟨?_, ?_, ?_, ?_⟩ <;>
    simp [VpnConfig.mode_all, OpenVpn.mode_all, hne,
      vpnFleetAttempt_fst, openVpnFleetAttempt_fst]

/-- Witness for the amended claim C8 at a concrete fleet. -/
theorem claim_C8_failures_continue_exit_zero_witness :
    ([1, 2] : List Int) ≠ []
    ∧ ((VpnConfig.mode_all true true [1, 2] (fun n => n == 1)).attempted = [1, 2]
       ∧ (VpnConfig.mode_all true true [1, 2] (fun n => n == 1)).exitCode = 0
       ∧ (OpenVpn.mode_all true true [1, 2] (fun n => n == 1)).attempted = [1, 2]
       ∧ (OpenVpn.mode_all true true [1, 2] (fun n => n == 1)).exitCode = 0) :=
  ⟨by decide,
   claim_C8_failures_continue_exit_zero true true [1, 2] (fun n => n == 1)
     rfl rfl (by decide)⟩

/-- Claim C9, counterexample: the runtime query may report a token such
as `wg²` (a legal Linux interface name); Python's Unicode-aware
`isdigit` accepts the superscript `²`, so discovery selects `wg²` and
`stop-all` stops it, although its name is not `wg` followed by decimal
digits. -/
theorem claim_C9_counterexample :
    VpnConfig.get_existing_wg_interfaces ["wg²"] = ["wg²"]
    ∧ VpnConfig.bring_all_down ["wg²"] = [VpnConfig.Event.stop "wg²"]
    ∧ VpnConfig.isWgDecimalName "wg²" = false
    ∧ VpnConfig.isWgDecimalName "wg5" = true := by
  refine ⟨by decide, by decide, by decide, by decide⟩

/-- Claim C2, counterexample: on a second provisioning call for team 5
with the server and client key files all present on disk, the trace of
`generate_team_config` nevertheless contains a client keypair
generation — the client keypair is regenerated, refuting "neither the
server keypair nor the team's client keypair is regenerated". -/
theorem claim_C2_counterexample :
    VpnConfig.existingKeysWorld.serverPrivExists = true
    ∧ VpnConfig.existingKeysWorld.serverPubExists = true
    ∧ VpnConfig.existingKeysWorld.clientKeyFilesExist = true
    ∧ VpnConfig.Event.genClientKeypair
        ∈ VpnConfig.generate_team_config 5 VpnConfig.defaultArgs none
            VpnConfig.existingKeysWorld := by
  refine ⟨rfl, rfl, rfl, by decide⟩

/-- Claim C2, amended: when the server key files already exist, a
repeated provisioning call reads them back instead of regenerating the
server keypair, but the team's client keypair is regenerated on every
call (the source never checks for existing client key files). -/
theorem claim_C2_server_reused_client_regenerated (net : Int)
    (args : VpnConfig.Args) (w : VpnConfig.World)
    (h1 : w.serverPrivExists = true) (h2 : w.serverPubExists = true) :
    VpnConfig.Event.genServerKeypair
        ∉ VpnConfig.generate_team_config net args none w
    ∧ VpnConfig.serverKeysUsed none w = w.serverKeyFiles
    ∧ VpnConfig.Event.genClientKeypair
        ∈ VpnConfig.generate_team_config net args none w := by
  have hkeys : VpnConfig.serverKeyEvents none w = [] := by
    simp [VpnConfig.serverKeyEvents, h1, h2]
  have hused : VpnConfig.serverKeysUsed none w = w.serverKeyFiles := by
    simp [VpnConfig.serverKeysUsed, h1, h2]
  refine ⟨?_, hused, ?_⟩
  · simp only [VpnConfig.generate_team_config, hkeys, List.nil_append]
    by_cases hm : (VpnConfig.allocate net args).iface
        ∈ VpnConfig.get_existing_wg_interfaces w.runtimeTokens
    · simp [hm]
    · simp [hm]
  · simp only [VpnConfig.generate_team_config]
    apply List.mem_append_right
    simp

/-- Witness for the amended claim C2 in the concrete repeat-call
scenario for team 5. -/
theorem claim_C2_server_reused_client_regenerated_witness :
    VpnConfig.existingKeysWorld.serverPrivExists = true
    ∧ (VpnConfig.Event.genServerKeypair
         ∉ VpnConfig.generate_team_config 5 VpnConfig.defaultArgs none
             VpnConfig.existingKeysWorld
       ∧ VpnConfig.serverKeysUsed none VpnConfig.existingKeysWorld
           = VpnConfig.existingKeysWorld.serverKeyFiles
       ∧ VpnConfig.Event.genClientKeypair
           ∈ VpnConfig.generate_team_config 5 VpnConfig.defaultArgs none
               VpnConfig.existingKeysWorld) :=
  ⟨rfl, claim_C2_server_reused_client_regenerated 5 VpnConfig.defaultArgs
      VpnConfig.existingKeysWorld rfl rfl⟩

set_option maxRecDepth 10000 in
/-- Claim C7, counterexample: for `net_number = 300`, outside the range
that keeps the third subnet octet in 0-255, the allocation is produced
anyway — the subnet is the malformed `10.32.300.1/24` — and provisioning
proceeds to write the InterfaceDefinition and start the interface.  No
`InvalidTeamIdentifier` (or any other) failure exists on this path. -/
theorem claim_C7_counterexample :
    VpnConfig.allocate 300 VpnConfig.defaultArgs
      = { iface := "wg300", port := 52120, subnet_gw := "10.32.300.1/24"
        , peer_ip32 := "10.32.300.2/32" }
    ∧ (255 : Int) < 300
    ∧ VpnConfig.Event.write (VpnConfig.FileTarget.wgConf 300)
        (VpnConfig.wgConfContent (VpnConfig.allocate 300 VpnConfig.defaultArgs)
          "server-priv" "fresh-client-pub")
        ∈ VpnConfig.generate_team_config 300 VpnConfig.defaultArgs none
            VpnConfig.existingKeysWorld
    ∧ (VpnConfig.generate_team_config 300 VpnConfig.defaultArgs none
          VpnConfig.existingKeysWorld).getLast?
      = some (VpnConfig.Event.start "wg300") := by
  refine ⟨by decide, by decide, by decide, by decide⟩

/-- Claim C7, amended: allocation performs no range validation at all —
for every `net_number` whatsoever, `generate_team_config` produces the
allocation and writes the InterfaceDefinition built from it; there is no
failure path. -/
theorem claim_C7_no_range_validation (net : Int) (args : VpnConfig.Args)
    (sk : Option (String × String)) (w : VpnConfig.World) :
    VpnConfig.Event.write (VpnConfig.FileTarget.wgConf net)
        (VpnConfig.wgConfContent (VpnConfig.allocate net args)
          (VpnConfig.serverKeysUsed sk w).1 w.freshClientKeys.2)
      ∈ VpnConfig.generate_team_config net args sk w := by
  simp only [VpnConfig.generate_team_config]
  apply List.mem_append_right
  simp

/-- Claim C4: over the valid octet range, two distinct `net_number`
values receive distinct listen ports and distinct player subnets, in
both the WireGuard variant (`base_port + net`, `10.32.{net}.1/24`) and
the OpenVPN variant (`1194 + net`, `10.33.{net}.0`). -/
theorem claim_C4_allocation_injective (n₁ n₂ : Int) (args : VpnConfig.Args)
    (h₁ : 0 ≤ n₁) (h₁' : n₁ ≤ 255) (h₂ : 0 ≤ n₂) (h₂' : n₂ ≤ 255)
    (hne : n₁ ≠ n₂) :
    (VpnConfig.allocate n₁ args).port ≠ (VpnConfig.allocate n₂ args).port
    ∧ (VpnConfig.allocate n₁ args).subnet_gw
        ≠ (VpnConfig.allocate n₂ args).subnet_gw
    ∧ OpenVpn.teamPort n₁ ≠ OpenVpn.teamPort n₂
    ∧ OpenVpn.playerSubnet n₁ ≠ OpenVpn.playerSubnet n₂ := by
  obtain ⟨m₁, rfl⟩ := Int.eq_ofNat_of_zero_le h₁
  obtain ⟨m₂, rfl⟩ := Int.eq_ofNat_of_zero_le h₂
  have hb₁ : m₁ < 256 := by omega
  have hb₂ : m₂ < 256 := by omega
  have hmm : m₁ ≠ m₂ := by omega
  have hrepr : (Nat.repr m₁).data ≠ (Nat.repr m₂).data := fun h =>
    hmm (natRepr_injOn256 hb₁ hb₂ h)
  refine ⟨?_, ?_, ?_, ?_⟩
  · show args.base_port + (m₁ : Int) ≠ args.base_port + (m₂ : Int)
    omega
  · show VpnConfig.PREFIX_VAL ++ "." ++ toString (Int.ofNat m₁) ++ ".1/24"
        ≠ VpnConfig.PREFIX_VAL ++ "." ++ toString (Int.ofNat m₂) ++ ".1/24"
    rw [intToString_ofNat, intToString_ofNat]
    intro h
    have hd := congrArg String.data h
    simp only [String.data_append] at hd
    exact hrepr (List.append_cancel_left (List.append_cancel_right hd))
  · show OpenVpn.BASE_PORT + (m₁ : Int) ≠ OpenVpn.BASE_PORT + (m₂ : Int)
    omega
  · show OpenVpn.PLAYER_SUBNET ++ "." ++ toString (Int.ofNat m₁) ++ ".0"
        ≠ OpenVpn.PLAYER_SUBNET ++ "." ++ toString (Int.ofNat m₂) ++ ".0"
    rw [intToString_ofNat, intToString_ofNat]
    intro h
    have hd := congrArg String.data h
    simp only [String.data_append] at hd
    exact hrepr (List.append_cancel_left (List.append_cancel_right hd))

/-- Witness for claim C4 at teams 3 and 5 with the default CLI
configuration. -/
theorem claim_C4_allocation_injective_witness :
    ((0 : Int) ≤ 3 ∧ (3 : Int) ≤ 255 ∧ (0 : Int) ≤ 5 ∧ (5 : Int) ≤ 255
      ∧ (3 : Int) ≠ 5)
    ∧ ((VpnConfig.allocate 3 VpnConfig.defaultArgs).port
          ≠ (VpnConfig.allocate 5 VpnConfig.defaultArgs).port
       ∧ (VpnConfig.allocate 3 VpnConfig.defaultArgs).subnet_gw
          ≠ (VpnConfig.allocate 5 VpnConfig.defaultArgs).subnet_gw
       ∧ OpenVpn.teamPort 3 ≠ OpenVpn.teamPort 5
       ∧ OpenVpn.playerSubnet 3 ≠ OpenVpn.playerSubnet 5) :=
  ⟨by refine ⟨by decide, by decide, by decide, by decide, by decide⟩,
   claim_C4_allocation_injective 3 5 VpnConfig.defaultArgs (by decide)
     (by decide) (by decide) (by decide) (by decide)⟩

/-- Claim C9, amended: fleet-wide discovery selects exactly the names
consisting of the prefix `wg` followed by a non-empty sequence of
characters that Python's `str.isdigit` accepts — a superset of the
decimal digits that also contains, e.g., superscript digits — and
`stop-all`/`start-all` act exactly on the discovered names. -/
theorem claim_C9_discovery_shape (tokens : List String) (s : String)
    (hs : s ∈ VpnConfig.get_existing_wg_interfaces tokens) :
    (∃ rest, s.toList = 'w' :: 'g' :: rest ∧ rest ≠ []
       ∧ rest.all Py.pyCharIsDigit = true)
    ∧ VpnConfig.bring_all_down tokens
        = (VpnConfig.get_existing_wg_interfaces tokens).map VpnConfig.Event.stop
    ∧ VpnConfig.bring_all_up tokens
        = (VpnConfig.get_existing_wg_interfaces tokens).map VpnConfig.Event.start := by
  refine ⟨?_, rfl, rfl⟩
  have hp : VpnConfig.wgIfacePattern s = true := (List.mem_filter.mp hs).2
  unfold VpnConfig.wgIfacePattern at hp
  split at hp
  · rename_i rest heq
    refine ⟨rest, heq, ?_, ?_⟩
    · intro hnil
      rw [hnil] at hp
      simp [Py.pyStrIsDigit] at hp
    · have hps := hp
      simp only [Py.pyStrIsDigit, Bool.and_eq_true] at hps
      exact hps.2
  · exact absurd hp (by simp)

/-- Witness for the amended claim C9 at the discovered name `wg5`. -/
theorem claim_C9_discovery_shape_witness :
    "wg5" ∈ VpnConfig.get_existing_wg_interfaces ["wg5"]
    ∧ ((∃ rest, "wg5".toList = 'w' :: 'g' :: rest ∧ rest ≠ []
          ∧ rest.all Py.pyCharIsDigit = true)
       ∧ VpnConfig.bring_all_down ["wg5"]
           = (VpnConfig.get_existing_wg_interfaces ["wg5"]).map VpnConfig.Event.stop
       ∧ VpnConfig.bring_all_up ["wg5"]
           = (VpnConfig.get_existing_wg_interfaces ["wg5"]).map VpnConfig.Event.start) :=
  ⟨by decide, claim_C9_discovery_shape ["wg5"] "wg5" (by decide)⟩

/-- Claim C1: when the runtime discovery reports the team's interface as
currently existing, the trace of `generate_team_config` restricted to
the runtime-controller calls on that interface and the writes of its
InterfaceDefinition is exactly stop, then the InterfaceDefinition write,
then start — the interface is never rewritten while still running. -/
theorem claim_C1_stop_rewrite_start (net : Int) (args : VpnConfig.Args)
    (sk : Option (String × String)) (w : VpnConfig.World)
    (hrun : "wg" ++ toString net
        ∈ VpnConfig.get_existing_wg_interfaces w.runtimeTokens) :
    (VpnConfig.generate_team_config net args sk w).filter
        (VpnConfig.runtimeAndIfaceDefEvents net ("wg" ++ toString net))
      = [VpnConfig.Event.stop ("wg" ++ toString net),
         VpnConfig.Event.write (VpnConfig.FileTarget.wgConf net)
           (VpnConfig.wgConfContent (VpnConfig.allocate net args)
              (VpnConfig.serverKeysUsed sk w).1 w.freshClientKeys.2),
         VpnConfig.Event.start ("wg" ++ toString net)] := by
  have hm : (VpnConfig.allocate net args).iface
      ∈ VpnConfig.get_existing_wg_interfaces w.runtimeTokens := hrun
  have hsk : (VpnConfig.serverKeyEvents sk w).filter
      (VpnConfig.runtimeAndIfaceDefEvents net ("wg" ++ toString net)) = [] := by
    rcases sk with _ | ks
    · simp only [VpnConfig.serverKeyEvents]
      split
      · rfl
      · simp [VpnConfig.runtimeAndIfaceDefEvents]
    · rfl
  simp only [VpnConfig.generate_team_config, List.filter_append, hsk,
    List.nil_append]
  rw [if_pos hm]
  simp [VpnConfig.runtimeAndIfaceDefEvents, VpnConfig.allocate]

/-- Witness for claim C1: team 5 with the interface `wg5` reported up. -/
theorem claim_C1_stop_rewrite_start_witness :
    ("wg" ++ toString (5 : Int))
        ∈ VpnConfig.get_existing_wg_interfaces
            VpnConfig.existingKeysWorld.runtimeTokens
    ∧ (VpnConfig.generate_team_config 5 VpnConfig.defaultArgs none
          VpnConfig.existingKeysWorld).filter
          (VpnConfig.runtimeAndIfaceDefEvents 5 ("wg" ++ toString (5 : Int)))
      = [VpnConfig.Event.stop ("wg" ++ toString (5 : Int)),
         VpnConfig.Event.write (VpnConfig.FileTarget.wgConf 5)
           (VpnConfig.wgConfContent (VpnConfig.allocate 5 VpnConfig.defaultArgs)
              (VpnConfig.serverKeysUsed none VpnConfig.existingKeysWorld).1
              VpnConfig.existingKeysWorld.freshClientKeys.2),
         VpnConfig.Event.start ("wg" ++ toString (5 : Int))] :=
  ⟨by decide,
   claim_C1_stop_rewrite_start 5 VpnConfig.defaultArgs none
     VpnConfig.existingKeysWorld (by decide)⟩

/-- The only write to the team's InterfaceDefinition in one
`generate_team_config` trace carries the rendered content determined by
the allocation and the keys used. -/
theorem writesTo_wgConf_eq (net : Int) (args : VpnConfig.Args)
    (sk : Option (String × String)) (w : VpnConfig.World) :
    VpnConfig.writesTo (VpnConfig.FileTarget.wgConf net)
        (VpnConfig.generate_team_config net args sk w)
      = [VpnConfig.wgConfContent (VpnConfig.allocate net args)
           (VpnConfig.serverKeysUsed sk w).1 w.freshClientKeys.2] := by
  have hsk : VpnConfig.writesTo (VpnConfig.FileTarget.wgConf net)
      (VpnConfig.serverKeyEvents sk w) = [] := by
    rcases sk with _ | ks
    · simp only [VpnConfig.serverKeyEvents]
      split
      · rfl
      · simp [VpnConfig.writesTo]
    · rfl
  simp only [VpnConfig.writesTo] at hsk ⊢
  simp only [VpnConfig.generate_team_config, List.filterMap_append, hsk,
    List.nil_append]
  by_cases hm : (VpnConfig.allocate net args).iface
      ∈ VpnConfig.get_existing_wg_interfaces w.runtimeTokens
  · rw [if_pos hm]; simp
  · rw [if_neg hm]; simp

/-- The only write to the team's ClientProfile in one
`generate_team_config` trace carries the rendered content determined by
the allocation and the keys used. -/
theorem writesTo_vpnConf_eq (net : Int) (args : VpnConfig.Args)
    (sk : Option (String × String)) (w : VpnConfig.World) :
    VpnConfig.writesTo (VpnConfig.FileTarget.vpnConf net)
        (VpnConfig.generate_team_config net args sk w)
      = [VpnConfig.vpnConfContent net args w.freshClientKeys.1
           (VpnConfig.serverKeysUsed sk w).2
           (VpnConfig.allocate net args).port] := by
  have hsk : VpnConfig.writesTo (VpnConfig.FileTarget.vpnConf net)
      (VpnConfig.serverKeyEvents sk w) = [] := by
    rcases sk with _ | ks
    · simp only [VpnConfig.serverKeyEvents]
      split
      · rfl
      · simp [VpnConfig.writesTo]
    · rfl
  simp only [VpnConfig.writesTo] at hsk ⊢
  simp only [VpnConfig.generate_team_config, List.filterMap_append, hsk,
    List.nil_append]
  by_cases hm : (VpnConfig.allocate net args).iface
      ∈ VpnConfig.get_existing_wg_interfaces w.runtimeTokens
  · rw [if_pos hm]; simp
  · rw [if_neg hm]; simp

/-- Claim C6: rendering is deterministic — two provisioning calls for
the same team whose key material is unchanged write byte-identical
InterfaceDefinition contents and byte-identical ClientProfile contents,
whatever else (such as the observed runtime state) differs between the
two calls. -/
theorem claim_C6_byte_identical (net : Int) (args : VpnConfig.Args)
    (sk : Option (String × String)) (w w' : VpnConfig.World)
    (hs : VpnConfig.serverKeysUsed sk w = VpnConfig.serverKeysUsed sk w')
    (hc : w.freshClientKeys = w'.freshClientKeys) :
    VpnConfig.writesTo (VpnConfig.FileTarget.wgConf net)
        (VpnConfig.generate_team_config net args sk w)
      = VpnConfig.writesTo (VpnConfig.FileTarget.wgConf net)
          (VpnConfig.generate_team_config net args sk w')
    ∧ VpnConfig.writesTo (VpnConfig.FileTarget.vpnConf net)
        (VpnConfig.generate_team_config net args sk w)
      = VpnConfig.writesTo (VpnConfig.FileTarget.vpnConf net)
          (VpnConfig.generate_team_config net args sk w') := by
  refine ⟨?_, ?_⟩
  · rw [writesTo_wgConf_eq net args sk w, writesTo_wgConf_eq net args sk w',
      hs, hc]
  · rw [writesTo_vpnConf_eq net args sk w, writesTo_vpnConf_eq net args sk w',
      hs, hc]

/-- Witness for claim C6: the same on-disk keys observed at two moments
with different runtime states produce the same bytes. -/
theorem claim_C6_byte_identical_witness :
    (VpnConfig.serverKeysUsed none VpnConfig.existingKeysWorld
       = VpnConfig.serverKeysUsed none VpnConfig.existingKeysWorldAlt
     ∧ VpnConfig.existingKeysWorld.freshClientKeys
       = VpnConfig.existingKeysWorldAlt.freshClientKeys)
    ∧ (VpnConfig.writesTo (VpnConfig.FileTarget.wgConf 5)
          (VpnConfig.generate_team_config 5 VpnConfig.defaultArgs none
            VpnConfig.existingKeysWorld)
        = VpnConfig.writesTo (VpnConfig.FileTarget.wgConf 5)
            (VpnConfig.generate_team_config 5 VpnConfig.defaultArgs none
              VpnConfig.existingKeysWorldAlt)
       ∧ VpnConfig.writesTo (VpnConfig.FileTarget.vpnConf 5)
          (VpnConfig.generate_team_config 5 VpnConfig.defaultArgs none
            VpnConfig.existingKeysWorld)
        = VpnConfig.writesTo (VpnConfig.FileTarget.vpnConf 5)
            (VpnConfig.generate_team_config 5 VpnConfig.defaultArgs none
              VpnConfig.existingKeysWorldAlt)) :=
  ⟨⟨by decide, rfl⟩,
   claim_C6_byte_identical 5 VpnConfig.defaultArgs none
     VpnConfig.existingKeysWorld VpnConfig.existingKeysWorldAlt
     (by decide) rfl⟩
